import Mathlib

/-!
# ros2_yolos_cpp: the adapter abstraction layer

A shallow embedding of `include/ros2_yolos_cpp/adapters/yolos_adapter_base.hpp`
and `include/ros2_yolos_cpp/visibility_control.hpp`.

Conventions of the embedding:

* a C++ `float` field or literal is a rational number holding the exact decimal
  value of the source literal (`0.4f` is `4/10`); rounding to binary32 is not
  modelled;
* a C++ `int` is an `Int`;
* `std::string` is `String`, `std::vector<T>` is `List T`, a `std::unique_ptr<T>`
  is an `Option T` (`none` is `nullptr`);
* `cv::Mat` is a row count, a column count and a list of bytes.
-/

namespace ros2_yolos_cpp

/-! ## Configuration and result structs -/

/-- The image and mask buffer type `cv::Mat`; default construction gives the empty matrix. -/
structure Mat where
  rows : Nat := 0
  cols : Nat := 0
  data : List Nat := []
  deriving DecidableEq, Repr

/-- The struct `YolosConfig`: common configuration for all YOLO adapters. -/
structure YolosConfig where
  model_path : String := ""
  labels_path : String := ""
  use_gpu : Bool := false
  conf_threshold : Rat := 0.4
  nms_threshold : Rat := 0.45
  yolo_version : String := "auto"
  deriving DecidableEq, Repr

/-- The struct `BoundingBox2D`: axis-aligned bounding box. -/
structure BoundingBox2D where
  x : Int := 0
  y : Int := 0
  width : Int := 0
  height : Int := 0
  deriving DecidableEq, Repr

/-- The struct `OrientedBoundingBox2D`: oriented (rotated) bounding box, angle in radians. -/
structure OrientedBoundingBox2D where
  center_x : Rat := 0.0
  center_y : Rat := 0.0
  width : Rat := 0.0
  height : Rat := 0.0
  angle : Rat := 0.0
  deriving DecidableEq, Repr

/-- The struct `KeyPoint2D`: keypoint for pose estimation. -/
structure KeyPoint2D where
  x : Rat := 0.0
  y : Rat := 0.0
  confidence : Rat := 0.0
  id : Int := 0
  deriving DecidableEq, Repr

/-- The struct `DetectionResult`. -/
structure DetectionResult where
  bbox : BoundingBox2D := {}
  confidence : Rat := 0.0
  class_id : Int := 0
  class_name : String := ""
  deriving DecidableEq, Repr

/-- The struct `SegmentationResult`; `mask` is a binary mask. -/
structure SegmentationResult where
  bbox : BoundingBox2D := {}
  confidence : Rat := 0.0
  class_id : Int := 0
  class_name : String := ""
  mask : Mat := {}
  deriving DecidableEq, Repr

/-- The struct `PoseResult`. -/
structure PoseResult where
  bbox : BoundingBox2D := {}
  confidence : Rat := 0.0
  class_id : Int := 0
  class_name : String := ""
  keypoints : List KeyPoint2D := []
  deriving DecidableEq, Repr

/-- The struct `OBBResult`. -/
structure OBBResult where
  bbox : OrientedBoundingBox2D := {}
  confidence : Rat := 0.0
  class_id : Int := 0
  class_name : String := ""
  deriving DecidableEq, Repr

/-- The struct `ClassificationResult`. -/
structure ClassificationResult where
  class_id : Int := 0
  confidence : Rat := 0.0
  class_name : String := ""
  deriving DecidableEq, Repr

/-- A rational lies in the closed unit interval. -/
def inUnit (q : Rat) : Prop := 0 ≤ q ∧ q ≤ 1

/-! ## Interface declarations

The abstract classes and factory prototypes of the header, as data: every
method with its parameter list and default arguments, every class and factory
with the visibility macro written in front of it. -/

/-- A literal used as a default argument. -/
inductive Literal
  | int (n : Int)
  | float (q : Rat)
  deriving DecidableEq, Repr

/-- One parameter of a method: type, name and default argument, if any. -/
structure Param where
  ty : String
  name : String
  dflt : Option Literal
  deriving DecidableEq, Repr

/-- One pure virtual method: return type, name, parameters. -/
structure Method where
  ret : String
  name : String
  params : List Param
  deriving DecidableEq, Repr

/-- One class declaration: the macro between `class` and the class name, the
name, the public base class and the methods declared in the class body. -/
structure ClassDecl where
  marker : Option String
  name : String
  base : Option String
  methods : List Method
  deriving DecidableEq, Repr

/-- One factory prototype: the macro in front of it, return type, name, parameters. -/
structure FunctionDecl where
  marker : Option String
  ret : String
  name : String
  params : List Param
  deriving DecidableEq, Repr

/-- The class `IYolosAdapterBase`: abstract base for all YOLO adapters. -/
def IYolosAdapterBase : ClassDecl :=
  { marker := some "ROS2_YOLOS_CPP_PUBLIC"
    name := "IYolosAdapterBase"
    base := none
    methods :=
      [ ⟨"bool", "initialize", [⟨"const YolosConfig&", "config", none⟩]⟩,
        ⟨"bool", "isInitialized", []⟩,
        ⟨"void", "shutdown", []⟩,
        ⟨"const std::vector<std::string>&", "getClassNames", []⟩ ] }

/-- The class `IDetectorAdapter`: detection adapter interface. -/
def IDetectorAdapter : ClassDecl :=
  { marker := some "ROS2_YOLOS_CPP_PUBLIC"
    name := "IDetectorAdapter"
    base := some "IYolosAdapterBase"
    methods :=
      [ ⟨"std::vector<DetectionResult>", "detect",
          [ ⟨"const cv::Mat&", "image", none⟩,
            ⟨"float", "conf_threshold", none⟩,
            ⟨"float", "nms_threshold", none⟩ ]⟩,
        ⟨"void", "drawDetections",
          [ ⟨"cv::Mat&", "image", none⟩,
            ⟨"const std::vector<DetectionResult>&", "detections", none⟩ ]⟩ ] }

/-- The class `ISegmentorAdapter`: segmentation adapter interface. -/
def ISegmentorAdapter : ClassDecl :=
  { marker := some "ROS2_YOLOS_CPP_PUBLIC"
    name := "ISegmentorAdapter"
    base := some "IYolosAdapterBase"
    methods :=
      [ ⟨"std::vector<SegmentationResult>", "segment",
          [ ⟨"const cv::Mat&", "image", none⟩,
            ⟨"float", "conf_threshold", none⟩,
            ⟨"float", "nms_threshold", none⟩ ]⟩,
        ⟨"void", "drawSegmentations",
          [ ⟨"cv::Mat&", "image", none⟩,
            ⟨"const std::vector<SegmentationResult>&", "segmentations", none⟩,
            ⟨"float", "mask_alpha", some (.float 0.5)⟩ ]⟩ ] }

/-- The class `IPoseAdapter`: pose estimation adapter interface. -/
def IPoseAdapter : ClassDecl :=
  { marker := some "ROS2_YOLOS_CPP_PUBLIC"
    name := "IPoseAdapter"
    base := some "IYolosAdapterBase"
    methods :=
      [ ⟨"std::vector<PoseResult>", "detect",
          [ ⟨"const cv::Mat&", "image", none⟩,
            ⟨"float", "conf_threshold", none⟩,
            ⟨"float", "nms_threshold", none⟩ ]⟩,
        ⟨"void", "drawPoses",
          [ ⟨"cv::Mat&", "image", none⟩,
            ⟨"const std::vector<PoseResult>&", "poses", none⟩,
            ⟨"int", "kpt_radius", some (.int 4)⟩,
            ⟨"float", "kpt_threshold", some (.float 0.5)⟩ ]⟩ ] }

/-- The class `IOBBAdapter`: OBB detection adapter interface. -/
def IOBBAdapter : ClassDecl :=
  { marker := some "ROS2_YOLOS_CPP_PUBLIC"
    name := "IOBBAdapter"
    base := some "IYolosAdapterBase"
    methods :=
      [ ⟨"std::vector<OBBResult>", "detect",
          [ ⟨"const cv::Mat&", "image", none⟩,
            ⟨"float", "conf_threshold", none⟩,
            ⟨"float", "nms_threshold", none⟩,
            ⟨"int", "max_det", some (.int 300)⟩ ]⟩,
        ⟨"void", "drawDetections",
          [ ⟨"cv::Mat&", "image", none⟩,
            ⟨"const std::vector<OBBResult>&", "detections", none⟩ ]⟩ ] }

/-- The class `IClassifierAdapter`: classification adapter interface. -/
def IClassifierAdapter : ClassDecl :=
  { marker := some "ROS2_YOLOS_CPP_PUBLIC"
    name := "IClassifierAdapter"
    base := some "IYolosAdapterBase"
    methods :=
      [ ⟨"ClassificationResult", "classify",
          [ ⟨"const cv::Mat&", "image", none⟩ ]⟩,
        ⟨"void", "drawResult",
          [ ⟨"cv::Mat&", "image", none⟩,
            ⟨"const ClassificationResult&", "result", none⟩ ]⟩ ] }

/-- The five capability interfaces, in the order of the header. -/
def capabilityInterfaces : List ClassDecl :=
  [IDetectorAdapter, ISegmentorAdapter, IPoseAdapter, IOBBAdapter, IClassifierAdapter]

/-- All six interface classes of the header. -/
def interfaceClasses : List ClassDecl :=
  IYolosAdapterBase :: capabilityInterfaces

/-- The five factory prototypes of the header. -/
def factoryDecls : List FunctionDecl :=
  [ ⟨some "ROS2_YOLOS_CPP_PUBLIC", "std::unique_ptr<IDetectorAdapter>", "createDetectorAdapter", []⟩,
    ⟨some "ROS2_YOLOS_CPP_PUBLIC", "std::unique_ptr<ISegmentorAdapter>", "createSegmentorAdapter", []⟩,
    ⟨some "ROS2_YOLOS_CPP_PUBLIC", "std::unique_ptr<IPoseAdapter>", "createPoseAdapter", []⟩,
    ⟨some "ROS2_YOLOS_CPP_PUBLIC", "std::unique_ptr<IOBBAdapter>", "createOBBAdapter", []⟩,
    ⟨some "ROS2_YOLOS_CPP_PUBLIC", "std::unique_ptr<IClassifierAdapter>", "createClassifierAdapter", []⟩ ]

/-- The method of a class with the given name, if the class declares one. -/
def ClassDecl.method? (c : ClassDecl) (m : String) : Option Method :=
  c.methods.find? (fun x => x.name == m)

/-- The default argument of parameter `p` of method `m` of class `c`;
`none` when the method or parameter is absent or the parameter has no default. -/
def defaultArg (c : ClassDecl) (m p : String) : Option Literal :=
  match c.method? m with
  | none => none
  | some x =>
    match x.params.find? (fun q => q.name == p) with
    | none => none
    | some q => q.dflt

/-- Every (class, method, parameter) triple of the given classes whose parameter
has a default argument, with that default. -/
def defaultedParams (cs : List ClassDecl) : List (String × String × String × Literal) :=
  cs.flatMap fun c => c.methods.flatMap fun m => m.params.filterMap fun p =>
    p.dflt.map fun d => (c.name, m.name, p.name, d)

/-- The names of the parameters of method `m` of class `c`. -/
def paramNames (c : ClassDecl) (m : String) : Option (List String) :=
  (c.method? m).map fun x => x.params.map Param.name

/-! ## Visibility macros

The conditional definitions of `visibility_control.hpp` as a function of the
preprocessor configuration. -/

/-- What the preprocessor sees before `visibility_control.hpp` is read. -/
structure PPConfig where
  /-- whether `_WIN32` is defined -/
  win32 : Bool
  /-- whether `__CYGWIN__` is defined -/
  cygwin : Bool
  /-- the value of `__GNUC__` when it is defined -/
  gnuc : Option Nat
  /-- whether `ROS2_YOLOS_CPP_BUILDING_DLL` is defined -/
  buildingDll : Bool
  deriving DecidableEq, Repr

/-- A token of a macro replacement list. -/
inductive Tok
  /-- an identifier, possibly the name of another macro -/
  | ident (name : String)
  /-- `__attribute__((dllexport))` -/
  | attrDllexport
  /-- `__attribute__((dllimport))` -/
  | attrDllimport
  /-- `__declspec(dllexport)` -/
  | declspecDllexport
  /-- `__declspec(dllimport)` -/
  | declspecDllimport
  /-- `__attribute__((visibility("default")))` -/
  | visibilityDefault
  /-- `__attribute__((visibility("hidden")))` -/
  | visibilityHidden
  deriving DecidableEq, Repr

/-- The value of `__GNUC__` inside `#if`: an undefined identifier evaluates to 0. -/
def PPConfig.gnucValue (c : PPConfig) : Nat := c.gnuc.getD 0

/-- The `#define` directives of `visibility_control.hpp` that are active under a
configuration, in source order: macro name and replacement list. -/
def visibility_control (c : PPConfig) : List (String × List Tok) :=
  if c.win32 || c.cygwin then
    (if c.gnuc.isSome then
      [ ("ROS2_YOLOS_CPP_EXPORT", [Tok.attrDllexport]),
        ("ROS2_YOLOS_CPP_IMPORT", [Tok.attrDllimport]) ]
    else
      [ ("ROS2_YOLOS_CPP_EXPORT", [Tok.declspecDllexport]),
        ("ROS2_YOLOS_CPP_IMPORT", [Tok.declspecDllimport]) ])
    ++
    (if c.buildingDll then
      [ ("ROS2_YOLOS_CPP_PUBLIC", [Tok.ident "ROS2_YOLOS_CPP_EXPORT"]) ]
    else
      [ ("ROS2_YOLOS_CPP_PUBLIC", [Tok.ident "ROS2_YOLOS_CPP_IMPORT"]) ])
    ++
    [ ("ROS2_YOLOS_CPP_LOCAL", []) ]
  else
    [ ("ROS2_YOLOS_CPP_EXPORT", [Tok.visibilityDefault]),
      ("ROS2_YOLOS_CPP_IMPORT", []) ]
    ++
    (if c.gnucValue ≥ 4 then
      [ ("ROS2_YOLOS_CPP_PUBLIC", [Tok.visibilityDefault]),
        ("ROS2_YOLOS_CPP_LOCAL", [Tok.visibilityHidden]) ]
    else
      [ ("ROS2_YOLOS_CPP_PUBLIC", []),
        ("ROS2_YOLOS_CPP_LOCAL", []) ])

/-- The replacement list of a macro in a table of definitions. -/
def macroBody (tbl : List (String × List Tok)) (name : String) : Option (List Tok) :=
  (tbl.find? (fun d => d.1 == name)).map Prod.snd

/-- Macro expansion of one token: an identifier that names a macro is replaced
by its replacement list, which is rescanned; `fuel` bounds the nesting depth. -/
def expandTok (tbl : List (String × List Tok)) : Nat → Tok → List Tok
  | fuel + 1, Tok.ident n =>
    match macroBody tbl n with
    | some body => body.flatMap (expandTok tbl fuel)
    | none => [Tok.ident n]
  | _, t => [t]

/-- What a use of the macro `name` expands to under a configuration; `none`
when the header leaves the macro undefined. -/
def expansion (c : PPConfig) (name : String) : Option (List Tok) :=
  let tbl := visibility_control c
  (macroBody tbl name).map fun body => body.flatMap (expandTok tbl tbl.length)

/-! ## Adapter lifecycle

The header declares the adapter operations as pure virtual methods and the
factories as prototypes; the adapter classes that implement them are not among
the source files. The definitions of this section follow the specification of
the base capability contract, the configuration validation and the
oriented-box inference contract. -/

/-- The five capabilities, one per interface and factory. -/
inductive Capability
  | Detector
  | Segmentor
  | Pose
  | OBB
  | Classifier
  deriving DecidableEq, Repr

/-- Modelled from the spec: the three states of the base capability contract
(the adapter classes behind `IYolosAdapterBase` are missing from the sources). -/
inductive Lifecycle
  | Uninitialized
  | Initialized
  | Shutdown
  deriving DecidableEq, Repr

/-- Modelled from the spec: the backend resources an initialized adapter holds,
namely the loaded model, the engine generation it delegates to and whether it
claimed the GPU (the adapter classes are missing from the sources). -/
structure Backend where
  model_path : String
  version : String
  gpu : Bool
  deriving DecidableEq, Repr

/-- Modelled from the spec: the state of one adapter instance, that is its
capability, its lifecycle state, its class-name table and its backend
resources (the adapter classes are missing from the sources). -/
structure Adapter where
  capability : Capability
  lifecycle : Lifecycle
  classNames : List String
  backend : Option Backend
  deriving DecidableEq, Repr

/-- Modelled from the spec: what `initialize` reads from outside the adapter
(the adapter classes are missing from the sources). `modelReadable p` says the
model path exists and is readable; `labelLines p` gives the lines of the labels
file when it exists and is readable; `detectVersion p` is the engine generation
found by introspection of the model file, `none` when it cannot be determined
unambiguously; `gpuAvailable` says whether a GPU can be claimed. -/
structure World where
  modelReadable : String → Bool
  labelLines : String → Option (List String)
  detectVersion : String → Option String
  gpuAvailable : Bool

/-- Modelled from the spec: a freshly constructed adapter is Uninitialized, has
an empty class-name table and holds no backend resources (the adapter
constructors are missing from the sources). -/
def Adapter.fresh (k : Capability) : Adapter :=
  { capability := k, lifecycle := Lifecycle.Uninitialized, classNames := [], backend := none }

/-- Modelled from the spec: the factory `createDetectorAdapter`, declared in the
header and defined in a source file that is missing; it returns a non-null
handle to a freshly constructed instance. -/
def createDetectorAdapter : Option Adapter := some (Adapter.fresh Capability.Detector)

/-- Modelled from the spec: the factory `createSegmentorAdapter`, declared in the
header and defined in a source file that is missing. -/
def createSegmentorAdapter : Option Adapter := some (Adapter.fresh Capability.Segmentor)

/-- Modelled from the spec: the factory `createPoseAdapter`, declared in the
header and defined in a source file that is missing. -/
def createPoseAdapter : Option Adapter := some (Adapter.fresh Capability.Pose)

/-- Modelled from the spec: the factory `createOBBAdapter`, declared in the
header and defined in a source file that is missing. -/
def createOBBAdapter : Option Adapter := some (Adapter.fresh Capability.OBB)

/-- Modelled from the spec: the factory `createClassifierAdapter`, declared in the
header and defined in a source file that is missing. -/
def createClassifierAdapter : Option Adapter := some (Adapter.fresh Capability.Classifier)

/-- Modelled from the spec: `isInitialized()`, a pure query valid in any state
(its implementations are missing from the sources). -/
def isInitialized (a : Adapter) : Bool :=
  match a.lifecycle with
  | Lifecycle.Initialized => true
  | _ => false

/-- Modelled from the spec: `getClassNames()` returns the frozen class-name
table when Initialized and an empty sequence in the other states (its
implementations are missing from the sources). -/
def getClassNames (a : Adapter) : List String :=
  match a.lifecycle with
  | Lifecycle.Initialized => a.classNames
  | _ => []

/-- Modelled from the spec: `shutdown()` releases all backend resources and
always ends in Shutdown (its implementations are missing from the sources). -/
def shutdown (a : Adapter) : Adapter :=
  { a with lifecycle := Lifecycle.Shutdown, classNames := [], backend := none }

/-- Modelled from the spec: the ordered, deduplicated class-name table of a list
of label lines; the first occurrence of a label keeps its place (the labels
loader is missing from the sources). -/
def dedupLabels : List String → List String
  | [] => []
  | l :: ls => l :: (dedupLabels ls).filter (fun x => x != l)

/-- Modelled from the spec: a threshold is in range when it lies in [0,1] (the
validation code is missing from the sources). -/
def thresholdInRange (t : Rat) : Bool := decide (0 ≤ t) && decide (t ≤ 1)

/-- Modelled from the spec: the validation `initialize` performs before touching
the backend (missing from the sources): the paths are non-empty, the model path
exists and is readable, the labels path exists, is readable and yields at least
one non-empty label line, and both thresholds are in range. On success the
result is the class-name table. -/
def validateConfig (w : World) (cfg : YolosConfig) : Option (List String) :=
  if cfg.model_path == "" || cfg.labels_path == "" then none
  else if !w.modelReadable cfg.model_path then none
  else
    match w.labelLines cfg.labels_path with
    | none => none
    | some lines =>
      match lines.filter (fun l => l != "") with
      | [] => none
      | l :: ls =>
        if thresholdInRange cfg.conf_threshold && thresholdInRange cfg.nms_threshold then
          some (dedupLabels (l :: ls))
        else none

/-- The explicit engine-version tags, from the comment on `yolo_version` in `YolosConfig`. -/
def versionTags : List String := ["v7", "v8", "v10", "v11", "v26", "nas"]

/-- Modelled from the spec: the backend selected by `yolo_version` (the
selection code is missing from the sources): `"auto"` takes the generation
found by introspection of the model file and fails when there is none, an
explicit tag of the enumerated set pins the backend, any other value fails. -/
def resolveVersion (w : World) (cfg : YolosConfig) : Option String :=
  if cfg.yolo_version == "auto" then w.detectVersion cfg.model_path
  else if versionTags.contains cfg.yolo_version then some cfg.yolo_version
  else none

/-- Modelled from the spec: a configuration is valid in a world when it passes
the validation, its version hint resolves and a requested GPU is available. -/
def validConfig (w : World) (cfg : YolosConfig) : Bool :=
  (validateConfig w cfg).isSome && (resolveVersion w cfg).isSome &&
    (!cfg.use_gpu || w.gpuAvailable)

/-- Modelled from the spec: `initialize(config)` (its implementations are
missing from the sources). An Initialized instance rejects the call. Otherwise
the configuration is validated, the backend is selected and the GPU is claimed
when asked for; any failure returns false and leaves the instance unchanged,
success returns true with the class-name table loaded and the backend held. -/
def initializeAdapter (w : World) (a : Adapter) (cfg : YolosConfig) : Bool × Adapter :=
  match a.lifecycle with
  | Lifecycle.Initialized => (false, a)
  | _ =>
    match validateConfig w cfg with
    | none => (false, a)
    | some table =>
      match resolveVersion w cfg with
      | none => (false, a)
      | some tag =>
        if cfg.use_gpu && !w.gpuAvailable then (false, a)
        else
          (true,
            { a with
              lifecycle := Lifecycle.Initialized
              classNames := table
              backend := some ⟨cfg.model_path, tag, cfg.use_gpu⟩ })

/-- Modelled from the spec: the inference engine behind an oriented-box adapter
(an external collaborator, absent from the sources): the scored rotated boxes
it finds in an image, and its non-max suppression on rotated geometry for a
given threshold. -/
structure OBBEngine where
  candidates : Mat → List OBBResult
  nms : Rat → List OBBResult → List OBBResult

/-- Modelled from the spec: `IOBBAdapter::detect` (declared pure virtual in the
header, its implementation is missing from the sources): at most `max_det`
results, confidence-filtered and NMS-applied. A non-initialized instance and
out-of-range thresholds give the empty result. -/
def obbDetect (e : OBBEngine) (a : Adapter) (image : Mat)
    (conf_threshold nms_threshold : Rat) (max_det : Int) : List OBBResult :=
  if !isInitialized a then []
  else if !(thresholdInRange conf_threshold && thresholdInRange nms_threshold) then []
  else
    ((e.nms nms_threshold
      ((e.candidates image).filter (fun r => decide (conf_threshold ≤ r.confidence)))).take
        max_det.toNat)

/-! ## Sample inputs -/

/-- A world with one readable model file, one labels file of three lines (one
repeated, one empty) and no GPU. -/
def sampleWorld : World :=
  { modelReadable := fun p => p == "model.onnx"
    labelLines := fun p => if p == "coco.names" then some ["person", "", "car", "person"] else none
    detectVersion := fun _ => none
    gpuAvailable := false }

/-- A configuration naming the files of `sampleWorld` and pinning the backend to `v8`. -/
def sampleConfig : YolosConfig :=
  { model_path := "model.onnx", labels_path := "coco.names", yolo_version := "v8" }

/-- The configuration of `sampleConfig` with an unrecognized version tag. -/
def bogusConfig : YolosConfig :=
  { model_path := "model.onnx", labels_path := "coco.names", yolo_version := "bogus-tag" }

/-- An initialized detector, as left by a successful `initialize`. -/
def sampleInitialized : Adapter :=
  { capability := Capability.Detector
    lifecycle := Lifecycle.Initialized
    classNames := ["person", "car"]
    backend := some ⟨"model.onnx", "v8", false⟩ }

/-- An initialized oriented-box adapter. -/
def sampleOBBAdapter : Adapter :=
  { capability := Capability.OBB
    lifecycle := Lifecycle.Initialized
    classNames := ["ship", "plane"]
    backend := some ⟨"obb.onnx", "v8", false⟩ }

/-- An engine that reports three rotated boxes for every image and suppresses nothing. -/
def sampleEngine : OBBEngine :=
  { candidates := fun _ =>
      [ { confidence := 0.9, class_id := 0, class_name := "ship" },
        { confidence := 0.8, class_id := 0, class_name := "ship" },
        { confidence := 0.7, class_id := 1, class_name := "plane" } ]
    nms := fun _ rs => rs }

/-! ## Theorems -/

/-- C1: a default-constructed `YolosConfig` has `use_gpu = false`,
`conf_threshold = 0.4`, `nms_threshold = 0.45` and `yolo_version = "auto"`;
the two path strings are default-constructed, that is empty. -/
theorem YolosConfig_default_values :
    ({} : YolosConfig).use_gpu = false ∧
    ({} : YolosConfig).conf_threshold = 4 / 10 ∧
    ({} : YolosConfig).nms_threshold = 45 / 100 ∧
    ({} : YolosConfig).yolo_version = "auto" ∧
    ({} : YolosConfig).model_path = "" ∧
    ({} : YolosConfig).labels_path = "" := by
  refine ⟨rfl, ?_, ?_, rfl, rfl, rfl⟩
  · show (0.4 : Rat) = 4 / 10
    norm_num
  · show (0.45 : Rat) = 45 / 100
    norm_num

/-- C6: the default arguments of the capability operations are
`mask_alpha = 0.5` for `drawSegmentations`, `kpt_radius = 4` and
`kpt_threshold = 0.5` for `drawPoses` and `max_det = 300` for the oriented-box
`detect`; these four are the only defaulted parameters of the five capability
interfaces, `detect` and `segment` take the image and both thresholds, and
`classify` takes the image only. -/
theorem capability_default_arguments :
    defaultArg ISegmentorAdapter "drawSegmentations" "mask_alpha" = some (Literal.float (1 / 2)) ∧
    defaultArg IPoseAdapter "drawPoses" "kpt_radius" = some (Literal.int 4) ∧
    defaultArg IPoseAdapter "drawPoses" "kpt_threshold" = some (Literal.float (1 / 2)) ∧
    defaultArg IOBBAdapter "detect" "max_det" = some (Literal.int 300) ∧
    defaultedParams capabilityInterfaces =
      [ ("ISegmentorAdapter", "drawSegmentations", "mask_alpha", Literal.float (1 / 2)),
        ("IPoseAdapter", "drawPoses", "kpt_radius", Literal.int 4),
        ("IPoseAdapter", "drawPoses", "kpt_threshold", Literal.float (1 / 2)),
        ("IOBBAdapter", "detect", "max_det", Literal.int 300) ] ∧
    paramNames IDetectorAdapter "detect" = some ["image", "conf_threshold", "nms_threshold"] ∧
    paramNames ISegmentorAdapter "segment" = some ["image", "conf_threshold", "nms_threshold"] ∧
    paramNames IPoseAdapter "detect" = some ["image", "conf_threshold", "nms_threshold"] ∧
    paramNames IClassifierAdapter "classify" = some ["image"] := by
  have h : (0.5 : Rat) = 1 / 2 := by norm_num
  refine ⟨?_, ?_, ?_, ?_, ?_, ?_, ?_, ?_, ?_⟩
  · simp [defaultArg, ClassDecl.method?, ISegmentorAdapter, h]
  · simp [defaultArg, ClassDecl.method?, IPoseAdapter]
  · simp [defaultArg, ClassDecl.method?, IPoseAdapter, h]
  · simp [defaultArg, ClassDecl.method?, IOBBAdapter]
  · simp [defaultedParams, capabilityInterfaces, IDetectorAdapter, ISegmentorAdapter,
      IPoseAdapter, IOBBAdapter, IClassifierAdapter, h]
  · simp [paramNames, ClassDecl.method?, IDetectorAdapter]
  · simp [paramNames, ClassDecl.method?, ISegmentorAdapter]
  · simp [paramNames, ClassDecl.method?, IPoseAdapter]
  · simp [paramNames, ClassDecl.method?, IClassifierAdapter]

/-- C7 (as stated, refuted): the `BoundingBox2D` with fields `0, 0, -1, -1` is a
value of the struct and has neither `width >= 0` nor `height >= 0`. -/
theorem BoundingBox2D_negative_extent :
    ¬ (0 ≤ (BoundingBox2D.mk 0 0 (-1) (-1)).width) ∧
    ¬ (0 ≤ (BoundingBox2D.mk 0 0 (-1) (-1)).height) := by
  constructor <;> decide

/-- C7 (amended): the default-constructed `BoundingBox2D` has `width = 0` and
`height = 0`, hence both non-negative, and the struct places no constraint on
the two fields: every pair of integers is the width and height of some box. -/
theorem BoundingBox2D_extent_unconstrained :
    (({} : BoundingBox2D).width = 0 ∧ ({} : BoundingBox2D).height = 0) ∧
    (0 ≤ ({} : BoundingBox2D).width ∧ 0 ≤ ({} : BoundingBox2D).height) ∧
    ∀ w h : Int, ∃ b : BoundingBox2D, b.width = w ∧ b.height = h := by
  refine ⟨⟨rfl, rfl⟩, ⟨by decide, by decide⟩, ?_⟩
  intro w h
  exact ⟨⟨0, 0, w, h⟩, rfl, rfl⟩

/-- C9: every default-constructed configuration and result value satisfies the
numeric invariants of the data model: the thresholds of `YolosConfig` lie in
[0,1]; both box types have `width = height = 0`; every confidence is 0, hence
in [0,1]; every `class_id` and the keypoint `id` are 0; the keypoint sequence
of `PoseResult` is empty and every `class_name` is the empty string. -/
theorem default_values_satisfy_invariants :
    (inUnit ({} : YolosConfig).conf_threshold ∧ inUnit ({} : YolosConfig).nms_threshold) ∧
    (({} : BoundingBox2D).width = 0 ∧ ({} : BoundingBox2D).height = 0 ∧
      0 ≤ ({} : BoundingBox2D).width ∧ 0 ≤ ({} : BoundingBox2D).height) ∧
    (({} : OrientedBoundingBox2D).width = 0 ∧ ({} : OrientedBoundingBox2D).height = 0 ∧
      0 ≤ ({} : OrientedBoundingBox2D).width ∧ 0 ≤ ({} : OrientedBoundingBox2D).height) ∧
    (({} : KeyPoint2D).confidence = 0 ∧ inUnit ({} : KeyPoint2D).confidence ∧
      ({} : KeyPoint2D).id = 0) ∧
    (({} : DetectionResult).confidence = 0 ∧ inUnit ({} : DetectionResult).confidence ∧
      ({} : DetectionResult).class_id = 0 ∧ ({} : DetectionResult).class_name = "" ∧
      ({} : DetectionResult).bbox = {}) ∧
    (({} : SegmentationResult).confidence = 0 ∧ inUnit ({} : SegmentationResult).confidence ∧
      ({} : SegmentationResult).class_id = 0 ∧ ({} : SegmentationResult).class_name = "" ∧
      ({} : SegmentationResult).bbox = {}) ∧
    (({} : PoseResult).confidence = 0 ∧ inUnit ({} : PoseResult).confidence ∧
      ({} : PoseResult).class_id = 0 ∧ ({} : PoseResult).class_name = "" ∧
      ({} : PoseResult).keypoints = [] ∧ ({} : PoseResult).bbox = {}) ∧
    (({} : OBBResult).confidence = 0 ∧ inUnit ({} : OBBResult).confidence ∧
      ({} : OBBResult).class_id = 0 ∧ ({} : OBBResult).class_name = "" ∧
      ({} : OBBResult).bbox = {}) ∧
    (({} : ClassificationResult).confidence = 0 ∧ inUnit ({} : ClassificationResult).confidence ∧
      ({} : ClassificationResult).class_id = 0 ∧ ({} : ClassificationResult).class_name = "") := by
  have z : (0.0 : Rat) = 0 := by norm_num
  have u : inUnit (0.0 : Rat) := by unfold inUnit; norm_num
  refine ⟨⟨?_, ?_⟩, ⟨rfl, rfl, by decide, by decide⟩, ⟨z, z, ?_, ?_⟩, ⟨z, u, rfl⟩,
    ⟨z, u, rfl, rfl, rfl⟩, ⟨z, u, rfl, rfl, rfl⟩, ⟨z, u, rfl, rfl, rfl, rfl⟩,
    ⟨z, u, rfl, rfl, rfl⟩, ⟨z, u, rfl, rfl⟩⟩
  · show inUnit (0.4 : Rat)
    unfold inUnit; norm_num
  · show inUnit (0.45 : Rat)
    unfold inUnit; norm_num
  · show (0 : Rat) ≤ (0.0 : Rat)
    norm_num
  · show (0 : Rat) ≤ (0.0 : Rat)
    norm_num

/-- The active definitions on a platform other than Windows and Cygwin with `__GNUC__ >= 4`. -/
lemma visibility_control_gnuc4 (b : Bool) (n : Nat) (h : 4 ≤ n) :
    visibility_control ⟨false, false, some n, b⟩ =
      [ ("ROS2_YOLOS_CPP_EXPORT", [Tok.visibilityDefault]),
        ("ROS2_YOLOS_CPP_IMPORT", []),
        ("ROS2_YOLOS_CPP_PUBLIC", [Tok.visibilityDefault]),
        ("ROS2_YOLOS_CPP_LOCAL", [Tok.visibilityHidden]) ] := by
  simp [visibility_control, PPConfig.gnucValue, h]

/-- The active definitions on a platform other than Windows and Cygwin with `__GNUC__ < 4`. -/
lemma visibility_control_plain (b : Bool) (n : Nat) (h : ¬ 4 ≤ n) :
    visibility_control ⟨false, false, some n, b⟩ =
      [ ("ROS2_YOLOS_CPP_EXPORT", [Tok.visibilityDefault]),
        ("ROS2_YOLOS_CPP_IMPORT", []),
        ("ROS2_YOLOS_CPP_PUBLIC", []),
        ("ROS2_YOLOS_CPP_LOCAL", []) ] := by
  simp [visibility_control, PPConfig.gnucValue, h]

/-- The expansion of a macro, once the table of active definitions is known. -/
lemma expansion_of_table (c : PPConfig) (name : String) {tbl : List (String × List Tok)}
    (h : visibility_control c = tbl) :
    expansion c name =
      (macroBody tbl name).map fun body => body.flatMap (expandTok tbl tbl.length) := by
  subst h
  rfl

/-- C10 (as stated, refuted): on a non-Windows platform whose compiler does not
define `__GNUC__`, both macros are defined and both expand to nothing, so
`ROS2_YOLOS_CPP_PUBLIC` is not `visibility("default")` and
`ROS2_YOLOS_CPP_LOCAL` is not `visibility("hidden")`; the same holds when
`__GNUC__` is 3. -/
theorem visibility_macros_empty_without_gnuc4 :
    expansion ⟨false, false, none, false⟩ "ROS2_YOLOS_CPP_PUBLIC" = some [] ∧
    expansion ⟨false, false, none, false⟩ "ROS2_YOLOS_CPP_LOCAL" = some [] ∧
    expansion ⟨false, false, none, false⟩ "ROS2_YOLOS_CPP_PUBLIC" ≠ some [Tok.visibilityDefault] ∧
    expansion ⟨false, false, none, false⟩ "ROS2_YOLOS_CPP_LOCAL" ≠ some [Tok.visibilityHidden] ∧
    expansion ⟨false, false, some 3, false⟩ "ROS2_YOLOS_CPP_PUBLIC" = some [] ∧
    expansion ⟨false, false, some 3, false⟩ "ROS2_YOLOS_CPP_LOCAL" = some [] := by
  simp [expansion, visibility_control, macroBody, expandTok, PPConfig.gnucValue]

/-- C10 (amended): each of the six interface classes and each of the five
factories carries `ROS2_YOLOS_CPP_PUBLIC`, and under every preprocessor
configuration the header defines both macros. `ROS2_YOLOS_CPP_PUBLIC` expands
on Windows or Cygwin to dllexport when the DLL is being built and to dllimport
otherwise (in `__attribute__` form when `__GNUC__` is defined, in `__declspec`
form when not), elsewhere to `visibility("default")` when `__GNUC__ >= 4` and to
nothing otherwise. `ROS2_YOLOS_CPP_LOCAL` expands to `visibility("hidden")` on a
platform other than Windows and Cygwin with `__GNUC__ >= 4`, and to nothing in
every other configuration. -/
theorem visibility_macros_expansion (c : PPConfig) :
    interfaceClasses.map (fun k => (k.name, k.marker)) =
      [ ("IYolosAdapterBase", some "ROS2_YOLOS_CPP_PUBLIC"),
        ("IDetectorAdapter", some "ROS2_YOLOS_CPP_PUBLIC"),
        ("ISegmentorAdapter", some "ROS2_YOLOS_CPP_PUBLIC"),
        ("IPoseAdapter", some "ROS2_YOLOS_CPP_PUBLIC"),
        ("IOBBAdapter", some "ROS2_YOLOS_CPP_PUBLIC"),
        ("IClassifierAdapter", some "ROS2_YOLOS_CPP_PUBLIC") ] ∧
    factoryDecls.map (fun f => (f.name, f.marker)) =
      [ ("createDetectorAdapter", some "ROS2_YOLOS_CPP_PUBLIC"),
        ("createSegmentorAdapter", some "ROS2_YOLOS_CPP_PUBLIC"),
        ("createPoseAdapter", some "ROS2_YOLOS_CPP_PUBLIC"),
        ("createOBBAdapter", some "ROS2_YOLOS_CPP_PUBLIC"),
        ("createClassifierAdapter", some "ROS2_YOLOS_CPP_PUBLIC") ] ∧
    expansion c "ROS2_YOLOS_CPP_PUBLIC" = some
      (if c.win32 || c.cygwin then
        (if c.buildingDll then
          (if c.gnuc.isSome then [Tok.attrDllexport] else [Tok.declspecDllexport])
        else
          (if c.gnuc.isSome then [Tok.attrDllimport] else [Tok.declspecDllimport]))
      else if 4 ≤ c.gnucValue then [Tok.visibilityDefault] else []) ∧
    expansion c "ROS2_YOLOS_CPP_LOCAL" = some
      (if !(c.win32 || c.cygwin) && decide (4 ≤ c.gnucValue) then [Tok.visibilityHidden]
      else []) := by
  refine ⟨rfl, rfl, ?_, ?_⟩
  · rcases c with ⟨w, cy, g, b⟩
    cases w <;> cases cy <;> cases b <;> cases g <;> first
      | rfl
      | (rename_i n
         by_cases h : 4 ≤ n
         · rw [expansion_of_table _ _ (visibility_control_gnuc4 _ n h)]
           simp [macroBody, expandTok, PPConfig.gnucValue, h]
         · rw [expansion_of_table _ _ (visibility_control_plain _ n h)]
           simp [macroBody, PPConfig.gnucValue, h])
  · rcases c with ⟨w, cy, g, b⟩
    cases w <;> cases cy <;> cases b <;> cases g <;> first
      | rfl
      | (rename_i n
         by_cases h : 4 ≤ n
         · rw [expansion_of_table _ _ (visibility_control_gnuc4 _ n h)]
           simp [macroBody, expandTok, PPConfig.gnucValue, h]
         · rw [expansion_of_table _ _ (visibility_control_plain _ n h)]
           simp [macroBody, PPConfig.gnucValue, h])

/-! ### Lifecycle -/

/-- The class-name table of a non-empty list of label lines is non-empty. -/
lemma dedupLabels_cons_ne_nil (l : String) (ls : List String) : dedupLabels (l :: ls) ≠ [] := by
  simp [dedupLabels]

/-- A successful validation yields a non-empty class-name table. -/
lemma validateConfig_ne_nil {w : World} {cfg : YolosConfig} {table : List String}
    (h : validateConfig w cfg = some table) : table ≠ [] := by
  unfold validateConfig at h
  split at h
  · exact absurd h (by simp)
  · split at h
    · exact absurd h (by simp)
    · split at h
      · exact absurd h (by simp)
      · split at h
        · exact absurd h (by simp)
        · split at h
          · cases h
            exact dedupLabels_cons_ne_nil _ _
          · exact absurd h (by simp)

/-- What a successful `initialize` leaves behind: the instance is Initialized
and its table is the one the validation produced. -/
lemma initializeAdapter_true {w : World} {a : Adapter} {cfg : YolosConfig}
    (h : (initializeAdapter w a cfg).1 = true) :
    (initializeAdapter w a cfg).2.lifecycle = Lifecycle.Initialized ∧
      validateConfig w cfg = some (initializeAdapter w a cfg).2.classNames := by
  unfold initializeAdapter at h ⊢
  split
  · rename_i hl
    simp [hl] at h
  · rename_i hl
    cases hv : validateConfig w cfg with
    | none => simp [hv] at h
    | some table =>
      cases hr : resolveVersion w cfg with
      | none => simp [hv, hr] at h
      | some tag =>
        by_cases hg : (cfg.use_gpu && !w.gpuAvailable) = true
        · simp [hv, hr, hg] at h
        · simp [hg]

/-- A failed `initialize` returns the instance it was given. -/
lemma initializeAdapter_false {w : World} {a : Adapter} {cfg : YolosConfig}
    (h : (initializeAdapter w a cfg).1 = false) : (initializeAdapter w a cfg).2 = a := by
  unfold initializeAdapter at h ⊢
  split
  · rfl
  · cases hv : validateConfig w cfg with
    | none => rfl
    | some table =>
      cases hr : resolveVersion w cfg with
      | none => rfl
      | some tag =>
        by_cases hg : (cfg.use_gpu && !w.gpuAvailable) = true
        · simp [hg]
        · simp [hv, hr, hg] at h

/-- Repeating `shutdown` changes nothing after the first call. -/
lemma shutdown_iterate (a : Adapter) (n : Nat) : shutdown^[n + 1] a = shutdown a := by
  induction n with
  | zero => rfl
  | succ k ih =>
    rw [Function.iterate_succ_apply', ih]
    rfl

/-- From a state other than Initialized, `initialize` with a valid configuration succeeds. -/
lemma initializeAdapter_of_valid {w : World} {a : Adapter} {cfg : YolosConfig}
    (hl : a.lifecycle ≠ Lifecycle.Initialized) (hv : validConfig w cfg = true) :
    (initializeAdapter w a cfg).1 = true := by
  unfold validConfig at hv
  simp only [Bool.and_eq_true, Option.isSome_iff_exists] at hv
  obtain ⟨⟨⟨table, ht⟩, ⟨tag, hr⟩⟩, hg⟩ := hv
  have hg2 : (cfg.use_gpu && !w.gpuAvailable) = false := by
    cases hu : cfg.use_gpu <;> cases hw : w.gpuAvailable <;> simp_all
  unfold initializeAdapter
  split
  · rename_i h
    exact absurd h hl
  · simp [ht, hr, hg2]

/-- C2: each of the five factories returns a non-null handle to a freshly
constructed instance of its capability, and that instance is Uninitialized:
`isInitialized()` is false on it, its class-name table is empty and it holds no
backend resources. -/
theorem factories_return_uninitialized :
    (∃ a : Adapter, createDetectorAdapter = some a ∧ a.capability = Capability.Detector ∧
      a.lifecycle = Lifecycle.Uninitialized ∧ isInitialized a = false ∧
      getClassNames a = [] ∧ a.backend = none) ∧
    (∃ a : Adapter, createSegmentorAdapter = some a ∧ a.capability = Capability.Segmentor ∧
      a.lifecycle = Lifecycle.Uninitialized ∧ isInitialized a = false ∧
      getClassNames a = [] ∧ a.backend = none) ∧
    (∃ a : Adapter, createPoseAdapter = some a ∧ a.capability = Capability.Pose ∧
      a.lifecycle = Lifecycle.Uninitialized ∧ isInitialized a = false ∧
      getClassNames a = [] ∧ a.backend = none) ∧
    (∃ a : Adapter, createOBBAdapter = some a ∧ a.capability = Capability.OBB ∧
      a.lifecycle = Lifecycle.Uninitialized ∧ isInitialized a = false ∧
      getClassNames a = [] ∧ a.backend = none) ∧
    (∃ a : Adapter, createClassifierAdapter = some a ∧ a.capability = Capability.Classifier ∧
      a.lifecycle = Lifecycle.Uninitialized ∧ isInitialized a = false ∧
      getClassNames a = [] ∧ a.backend = none) := by
  refine ⟨?_, ?_, ?_, ?_, ?_⟩ <;> exact ⟨_, rfl, rfl, rfl, rfl, rfl, rfl⟩

/-- C3: for every adapter instance and every configuration, if
`initialize(config)` returns true then right afterwards `isInitialized()` is
true and `getClassNames()` is non-empty. -/
theorem initialize_true_ready (w : World) (a : Adapter) (cfg : YolosConfig)
    (h : (initializeAdapter w a cfg).1 = true) :
    isInitialized (initializeAdapter w a cfg).2 = true ∧
      0 < (getClassNames (initializeAdapter w a cfg).2).length := by
  obtain ⟨hl, ht⟩ := initializeAdapter_true h
  have hne := validateConfig_ne_nil ht
  constructor
  · simp [isInitialized, hl]
  · simp only [getClassNames, hl]
    exact List.length_pos.mpr hne

/-- C4: for every adapter instance in the Uninitialized state and every
configuration, if `initialize(config)` returns false then `isInitialized()` is
false afterwards and the instance is in the state it had before the call. -/
theorem initialize_false_unchanged (w : World) (a : Adapter) (cfg : YolosConfig)
    (hu : a.lifecycle = Lifecycle.Uninitialized)
    (h : (initializeAdapter w a cfg).1 = false) :
    isInitialized (initializeAdapter w a cfg).2 = false ∧
      (initializeAdapter w a cfg).2 = a := by
  have heq := initializeAdapter_false h
  refine ⟨?_, heq⟩
  rw [heq]
  simp [isInitialized, hu]

/-- C5: from every adapter state and for every `n >= 1`, calling `shutdown()`
`n` times leaves the same state as calling it once, `isInitialized()` is false
in that state, and a following `initialize()` with a valid configuration
succeeds. -/
theorem shutdown_idempotent (w : World) (a : Adapter) (cfg : YolosConfig) (n : Nat)
    (hn : 1 ≤ n) (hv : validConfig w cfg = true) :
    shutdown^[n] a = shutdown a ∧
      isInitialized (shutdown^[n] a) = false ∧
      (initializeAdapter w (shutdown^[n] a) cfg).1 = true := by
  obtain ⟨k, rfl⟩ : ∃ k, n = k + 1 := ⟨n - 1, by omega⟩
  rw [shutdown_iterate]
  refine ⟨rfl, rfl, ?_⟩
  exact initializeAdapter_of_valid (by simp [shutdown]) hv

/-- C8: for every initialized oriented-box adapter, every image, all
thresholds and every `k >= 0`, `detect(image, conf_threshold, nms_threshold, k)`
returns at most `k` results, and none when `k = 0`. -/
theorem obbDetect_length_le (e : OBBEngine) (a : Adapter) (image : Mat)
    (conf_threshold nms_threshold : Rat) (k : Int)
    (hi : isInitialized a = true) (hk : 0 ≤ k) :
    ((obbDetect e a image conf_threshold nms_threshold k).length : Int) ≤ k ∧
      (k = 0 → obbDetect e a image conf_threshold nms_threshold k = []) := by
  have hlen : (obbDetect e a image conf_threshold nms_threshold k).length ≤ k.toNat := by
    unfold obbDetect
    rw [if_neg (by simp [hi])]
    split
    · simp
    · exact List.length_take_le _ _
  constructor
  · have : ((k.toNat : Nat) : Int) = k := Int.toNat_of_nonneg hk
    omega
  · intro h0
    subst h0
    exact List.length_eq_zero.mp (Nat.le_zero.mp hlen)

/-- Witness for C3: in `sampleWorld` a fresh detector accepts `sampleConfig`,
and is then initialized with a non-empty class-name table. -/
theorem initialize_true_ready_witness :
    (initializeAdapter sampleWorld (Adapter.fresh Capability.Detector) sampleConfig).1 = true ∧
    (isInitialized
        (initializeAdapter sampleWorld (Adapter.fresh Capability.Detector) sampleConfig).2 = true ∧
      0 < (getClassNames
        (initializeAdapter sampleWorld (Adapter.fresh Capability.Detector) sampleConfig).2).length) :=
  ⟨by decide!,
    initialize_true_ready sampleWorld (Adapter.fresh Capability.Detector) sampleConfig (by decide!)⟩

/-- Witness for C4: in `sampleWorld` a fresh detector rejects the configuration
with the unrecognized version tag and stays as it was. -/
theorem initialize_false_unchanged_witness :
    (Adapter.fresh Capability.Detector).lifecycle = Lifecycle.Uninitialized ∧
    (initializeAdapter sampleWorld (Adapter.fresh Capability.Detector) bogusConfig).1 = false ∧
    (isInitialized
        (initializeAdapter sampleWorld (Adapter.fresh Capability.Detector) bogusConfig).2 = false ∧
      (initializeAdapter sampleWorld (Adapter.fresh Capability.Detector) bogusConfig).2 =
        Adapter.fresh Capability.Detector) :=
  ⟨rfl, by decide!,
    initialize_false_unchanged sampleWorld (Adapter.fresh Capability.Detector) bogusConfig rfl
      (by decide!)⟩

/-- Witness for C5: three calls of `shutdown` on an initialized detector leave
what one call leaves, and `sampleConfig`, valid in `sampleWorld`, is accepted
afterwards. -/
theorem shutdown_idempotent_witness :
    1 ≤ 3 ∧ validConfig sampleWorld sampleConfig = true ∧
    (shutdown^[3] sampleInitialized = shutdown sampleInitialized ∧
      isInitialized (shutdown^[3] sampleInitialized) = false ∧
      (initializeAdapter sampleWorld (shutdown^[3] sampleInitialized) sampleConfig).1 = true) :=
  ⟨by decide, by decide!,
    shutdown_idempotent sampleWorld sampleInitialized sampleConfig 3 (by decide) (by decide!)⟩

/-- Witness for C8: with `max_det = 2` the initialized sample adapter returns at
most two of the three boxes the sample engine reports. -/
theorem obbDetect_length_le_witness :
    isInitialized sampleOBBAdapter = true ∧ (0 : Int) ≤ 2 ∧
    (((obbDetect sampleEngine sampleOBBAdapter {} (1 / 4) (45 / 100) 2).length : Int) ≤ 2 ∧
      ((2 : Int) = 0 → obbDetect sampleEngine sampleOBBAdapter {} (1 / 4) (45 / 100) 2 = [])) :=
  ⟨rfl, by decide,
    obbDetect_length_le sampleEngine sampleOBBAdapter {} (1 / 4) (45 / 100) 2 rfl (by decide)⟩

end ros2_yolos_cpp
